import Mathlib

/-!
Verification development for the tsunami wave-physics module
(src/models/wave_physics.py). Floating-point arithmetic is idealised
over the real numbers; numpy arrays become lists of reals aligned with
the calculator's spatial grid.
-/

noncomputable section

namespace WavePhysics

/-- The WaveParameters dataclass: wave parameters with the source's
default values for the optional fields. -/
structure WaveParameters where
  amplitude : ℝ
  wavelength : ℝ
  depth : ℝ
  bottom_friction : ℝ := 0.001
  coriolis_param : ℝ := 0.0001
  wind_speed : ℝ := 0.0
  wind_direction : ℝ := 0.0

/-- The include_effects dictionary passed to calculate_wave_profile:
a toggle per effect name; an absent key reads as false via dict.get,
so a plain record of five booleans is an exact model. -/
structure IncludeEffects where
  nonlinear : Bool
  dispersion : Bool
  bottom_friction : Bool
  coriolis : Bool
  wind : Bool

/-- mean of a list of reals, as np.mean: sum divided by length. -/
def listMean (l : List ℝ) : ℝ := l.sum / l.length

/-- np.max over the absolute values of a list (np.max(np.abs(eta))).
np.max raises on an empty array; the empty case is mapped to 0 here and
every theorem that depends on the maximum takes a nonempty profile. -/
def npAbsMax (l : List ℝ) : ℝ := (l.map (fun a => |a|)).foldr max 0

/-- np.linspace(start, stop, num): num evenly spaced points from start
to stop inclusive; sample i is start + (stop-start)*i/(num-1), with the
single-point case returning just the start. -/
def linspace (start stop : ℝ) (num : ℕ) : List ℝ :=
  if num = 1 then [start]
  else (List.range num).map
    (fun i : ℕ => start + (stop - start) * (i : ℝ) / ((num : ℝ) - 1))

/-- np.fft.fftfreq(n, d): frequency bins i/(d*n) for the first half,
negative-mirrored for the second half. -/
def fftfreq (n : ℕ) (d : ℝ) : List ℝ :=
  (List.range n).map (fun i =>
    if i < (n + 1) / 2 then (i : ℝ) / (d * n)
    else ((i : ℝ) - n) / (d * n))

/-- np.abs(np.fft.fft(eta))**2: squared modulus of the discrete Fourier
transform of the profile. -/
def dftPowerSpectrum (eta : List ℝ) : List ℝ :=
  (List.range eta.length).map (fun m : ℕ =>
    Complex.abs ((List.range eta.length).map (fun j : ℕ =>
      ((eta.getD j 0 : ℝ) : ℂ) *
        Complex.exp (-2 * Real.pi * Complex.I * (j : ℂ) * (m : ℂ)
          / (eta.length : ℂ))) |>.sum) ^ 2)

/-- The analysis dictionary returned by _analyze_wave. -/
structure WaveAnalysis where
  energy : ℝ
  energy_spectrum : List ℝ × List ℝ
  momentum_flux : ℝ
  phase_velocity : ℝ
  group_velocity : ℝ
  max_amplitude : ℝ
  rms_amplitude : ℝ
  mean_wavelength : ℝ
  period : ℝ

/-- The dictionary returned by calculate_tsunami_risk. -/
structure RiskAssessment where
  risk_level : String
  max_height : ℝ
  energy : ℝ
  potential_damage : String

/-- The TsunamiWaveModel instance state: fields set in __init__. -/
structure TsunamiWaveModel where
  domain_size : ℝ
  nx : ℕ
  dx : ℝ
  x : List ℝ
  g : ℝ
  rho : ℝ
  earth_radius : ℝ

namespace TsunamiWaveModel

/-- TsunamiWaveModel.__init__(domain_size, nx): stores domain_size, nx,
dx = domain_size/nx, the grid x = np.linspace(0, domain_size, nx), and
the physical constants g = 9.81, rho = 1025.0, earth_radius = 6371000. -/
def init (domain_size : ℝ) (nx : ℕ) : TsunamiWaveModel :=
  { domain_size := domain_size
    nx := nx
    dx := domain_size / nx
    x := linspace 0 domain_size nx
    g := 9.81
    rho := 1025.0
    earth_radius := 6371000 }

/-- _add_nonlinear_effects: adds the second- and third-order Stokes
terms, each evaluated against the base phase k*x - omega*t, onto the
running profile. -/
def add_nonlinear_effects (m : TsunamiWaveModel) (eta : List ℝ)
    (k omega t : ℝ) (params : WaveParameters) : List ℝ :=
  List.zipWith (fun e xi =>
      e + 0.5 * k * params.amplitude ^ 2 * Real.cos (2 * (k * xi - omega * t))
        + (3 / 8) * k ^ 2 * params.amplitude ^ 3 * Real.cos (3 * (k * xi - omega * t)))
    eta m.x

/-- _add_dispersion_effects: multiplies the whole profile by the scalar
sqrt(tanh(beta)/beta) with beta = k*depth. -/
def add_dispersion_effects (_m : TsunamiWaveModel) (eta : List ℝ)
    (k depth : ℝ) : List ℝ :=
  eta.map (fun e => e * Real.sqrt (Real.tanh (k * depth) / (k * depth)))

/-- _add_bottom_friction: multiplies the whole profile by
exp(-friction*t). -/
def add_bottom_friction (_m : TsunamiWaveModel) (eta : List ℝ)
    (friction t : ℝ) : List ℝ :=
  eta.map (fun e => e * Real.exp (-friction * t))

/-- _add_coriolis_effect: multiplies the whole profile by cos(f*t). -/
def add_coriolis_effect (_m : TsunamiWaveModel) (eta : List ℝ)
    (f t : ℝ) : List ℝ :=
  eta.map (fun e => e * Real.cos (f * t))

/-- _add_wind_effect: adds 0.0015*wind_speed*cos(wind_direction)*
sin(2*pi*x/domain_size) at each grid point. -/
def add_wind_effect (m : TsunamiWaveModel) (eta : List ℝ)
    (wind_speed wind_direction : ℝ) : List ℝ :=
  List.zipWith (fun e xi =>
      e + 0.0015 * wind_speed * Real.cos wind_direction *
        Real.sin (2 * Real.pi * xi / m.domain_size))
    eta m.x

/-- _analyze_wave: the derived scalar statistics and the energy
spectrum of a profile. -/
def analyze_wave (m : TsunamiWaveModel) (eta : List ℝ)
    (k omega : ℝ) (params : WaveParameters) : WaveAnalysis :=
  { energy := 0.5 * m.rho * m.g * listMean (eta.map (fun e => e ^ 2))
    energy_spectrum := (fftfreq eta.length m.dx, dftPowerSpectrum eta)
    momentum_flux := m.rho * m.g * listMean (eta.map (fun e => e ^ 2)) / 2
    phase_velocity := omega / k
    group_velocity :=
      0.5 * omega / k * (1 + 2 * k * params.depth / Real.sinh (2 * k * params.depth))
    max_amplitude := npAbsMax eta
    rms_amplitude := Real.sqrt (listMean (eta.map (fun e => e ^ 2)))
    mean_wavelength := 2 * Real.pi / k
    period := 2 * Real.pi / omega }

/-- The wavenumber k = 2*pi/wavelength computed at the top of
calculate_wave_profile. -/
def waveNumber (wavelength : ℝ) : ℝ := 2 * Real.pi / wavelength

/-- The angular frequency omega = sqrt(g*k*tanh(k*depth)) computed at
the top of calculate_wave_profile. -/
def angularFrequency (m : TsunamiWaveModel) (k depth : ℝ) : ℝ :=
  Real.sqrt (m.g * k * Real.tanh (k * depth))

/-- The base profile eta = amplitude*cos(k*x - omega*t) sampled on the
calculator's grid. -/
def baseProfile (m : TsunamiWaveModel) (params : WaveParameters)
    (k omega t : ℝ) : List ℝ :=
  m.x.map (fun xi => params.amplitude * Real.cos (k * xi - omega * t))

/-- The five conditional correction blocks of calculate_wave_profile,
in source order, each feeding its output to the next enabled block. -/
def applyEffects (m : TsunamiWaveModel) (params : WaveParameters) (t : ℝ)
    (include_effects : IncludeEffects) (k omega : ℝ) (eta0 : List ℝ) : List ℝ :=
  let eta1 := if include_effects.nonlinear then
      m.add_nonlinear_effects eta0 k omega t params else eta0
  let eta2 := if include_effects.dispersion then
      m.add_dispersion_effects eta1 k params.depth else eta1
  let eta3 := if include_effects.bottom_friction then
      m.add_bottom_friction eta2 params.bottom_friction t else eta2
  let eta4 := if include_effects.coriolis then
      m.add_coriolis_effect eta3 params.coriolis_param t else eta3
  if include_effects.wind then
      m.add_wind_effect eta4 params.wind_speed params.wind_direction else eta4

/-- calculate_wave_profile: dispersion relation, base profile, the five
optional corrections in source order, then the analysis of the final
profile. -/
def calculate_wave_profile (m : TsunamiWaveModel) (params : WaveParameters)
    (t : ℝ) (include_effects : IncludeEffects) : List ℝ × WaveAnalysis :=
  let k := waveNumber params.wavelength
  let omega := m.angularFrequency k params.depth
  let eta := m.applyEffects params t include_effects k omega
    (m.baseProfile params k omega t)
  (eta, m.analyze_wave eta k omega params)

/-- _estimate_damage: the free-text damage estimate, a threshold ladder
on height alone (the energy argument is accepted but never read). -/
def estimate_damage (_m : TsunamiWaveModel) (height : ℝ) (_energy : ℝ) : String :=
  if height < 1.0 then "Thiệt hại nhẹ đến các công trình ven biển"
  else if height < 3.0 then
    "Thiệt hại đáng kể đến các công trình ven biển, ngập lụt vùng thấp"
  else if height < 6.0 then
    "Thiệt hại nghiêm trọng đến công trình, ngập lụt sâu trong đất liền"
  else "Thiệt hại toàn diện đến cơ sở hạ tầng ven biển"

/-- calculate_tsunami_risk: max height, energy, the four-band risk
ladder, and the damage estimate. -/
def calculate_tsunami_risk (m : TsunamiWaveModel) (eta : List ℝ)
    (_params : WaveParameters) : RiskAssessment :=
  let max_height := npAbsMax eta
  let energy := 0.5 * m.rho * m.g * listMean (eta.map (fun e => e ^ 2))
  let risk_level :=
    if max_height < 0.5 then "Thấp"
    else if max_height < 2.0 then "Trung bình"
    else if max_height < 5.0 then "Cao"
    else "Rất cao"
  { risk_level := risk_level
    max_height := max_height
    energy := energy
    potential_damage := m.estimate_damage max_height energy }

/-- State-passing form of calculate_wave_profile: the method body
contains no assignment to any field of self, so the translated
post-state is the unchanged pre-state. -/
def calculate_wave_profile_st (m : TsunamiWaveModel) (params : WaveParameters)
    (t : ℝ) (include_effects : IncludeEffects) :
    (List ℝ × WaveAnalysis) × TsunamiWaveModel :=
  (m.calculate_wave_profile params t include_effects, m)

/-- State-passing form of calculate_tsunami_risk: likewise the method
assigns no field of self. -/
def calculate_tsunami_risk_st (m : TsunamiWaveModel) (eta : List ℝ)
    (params : WaveParameters) : RiskAssessment × TsunamiWaveModel :=
  (m.calculate_tsunami_risk eta params, m)

/-- The ordered chain of enabled corrections, as the spec describes the
pipeline: one transform per enabled toggle, in the fixed order
nonlinear, dispersion, bottom_friction, coriolis, wind. -/
def orderedEffectChain (m : TsunamiWaveModel) (params : WaveParameters)
    (t : ℝ) (e : IncludeEffects) (k omega : ℝ) : List (List ℝ → List ℝ) :=
  (if e.nonlinear then [fun eta => m.add_nonlinear_effects eta k omega t params] else [])
  ++ (if e.dispersion then [fun eta => m.add_dispersion_effects eta k params.depth] else [])
  ++ (if e.bottom_friction then [fun eta => m.add_bottom_friction eta params.bottom_friction t] else [])
  ++ (if e.coriolis then [fun eta => m.add_coriolis_effect eta params.coriolis_param t] else [])
  ++ (if e.wind then [fun eta => m.add_wind_effect eta params.wind_speed params.wind_direction] else [])

end TsunamiWaveModel

/-! ## Helper lemmas -/

lemma tanh_pos_of_pos {x : ℝ} (hx : 0 < x) : 0 < Real.tanh x := by
  rw [Real.tanh_eq_sinh_div_cosh]
  exact div_pos (Real.sinh_pos_iff.mpr hx) (Real.cosh_pos x)

lemma listMean_sq_nonneg (l : List ℝ) : 0 ≤ listMean (l.map (fun e => e ^ 2)) := by
  unfold listMean
  apply div_nonneg _ (Nat.cast_nonneg _)
  apply List.sum_nonneg
  intro a ha
  obtain ⟨e, _, rfl⟩ := List.mem_map.mp ha
  positivity

lemma zipWith_eq_left {α β : Type} (f : α → β → α) (hf : ∀ a b, f a b = a) :
    ∀ (l1 : List α) (l2 : List β), l1.length ≤ l2.length →
      List.zipWith f l1 l2 = l1 := by
  intro l1
  induction l1 with
  | nil => intro l2 _; simp
  | cons a as ih =>
    intro l2 h
    cases l2 with
    | nil => simp at h
    | cons b bs =>
      simp only [List.zipWith_cons_cons, hf a b, List.cons.injEq, true_and]
      exact ih bs (by simpa using h)

lemma linspace_getD (D : ℝ) (nx : ℕ) (hnx : 2 ≤ nx) (i : ℕ) (hi : i < nx) :
    (linspace 0 D nx).getD i 0 = D * i / ((nx : ℝ) - 1) := by
  unfold linspace
  rw [if_neg (by omega)]
  have hlen : i < ((List.range nx).map
      (fun j : ℕ => 0 + (D - 0) * (j : ℝ) / ((nx : ℝ) - 1))).length := by
    rw [List.length_map, List.length_range]
    exact hi
  rw [List.getD_eq_getElem _ _ hlen, List.getElem_map, List.getElem_range]
  ring

namespace TsunamiWaveModel

lemma add_wind_effect_zero (m : TsunamiWaveModel) (eta : List ℝ) (dir : ℝ)
    (h : eta.length ≤ m.x.length) : m.add_wind_effect eta 0 dir = eta := by
  unfold add_wind_effect
  apply zipWith_eq_left _ _ _ _ h
  intro a b
  ring

end TsunamiWaveModel

/-! ## Claim theorems -/

open TsunamiWaveModel in
/-- Claim C1: the profile returned by calculate_wave_profile is the base
profile amplitude*cos(k*x - omega*t) pushed through the enabled
corrections in the fixed order nonlinear, dispersion, bottom_friction,
coriolis, wind, each transform consuming the output of the previous
enabled transform. -/
theorem C1_ordered_pipeline (m : TsunamiWaveModel) (p : WaveParameters)
    (t : ℝ) (e : IncludeEffects) :
    (m.calculate_wave_profile p t e).1 =
      (m.orderedEffectChain p t e (waveNumber p.wavelength)
          (m.angularFrequency (waveNumber p.wavelength) p.depth)).foldl
        (fun eta f => f eta)
        (m.baseProfile p (waveNumber p.wavelength)
          (m.angularFrequency (waveNumber p.wavelength) p.depth) t) := by
  obtain ⟨n, d, b, c, w⟩ := e
  cases n <;> cases d <;> cases b <;> cases c <;> cases w <;> rfl

open TsunamiWaveModel in
/-- Claim C3: the wavenumber and angular frequency computed by
calculate_wave_profile satisfy k = 2*pi/wavelength and
omega^2 = g*k*tanh(k*depth) with g = 9.81, for positive wavelength and
depth. -/
theorem C3_dispersion_relation (D : ℝ) (nx : ℕ) (wavelength depth : ℝ)
    (hw : 0 < wavelength) (hd : 0 < depth) :
    waveNumber wavelength = 2 * Real.pi / wavelength ∧
    ((TsunamiWaveModel.init D nx).angularFrequency (waveNumber wavelength) depth) ^ 2
      = 9.81 * waveNumber wavelength * Real.tanh (waveNumber wavelength * depth) := by
  have hk : 0 < waveNumber wavelength := by
    unfold waveNumber
    positivity
  refine ⟨rfl, ?_⟩
  unfold angularFrequency
  have hg : ((TsunamiWaveModel.init D nx).g : ℝ) = 9.81 := rfl
  rw [hg]
  apply Real.sq_sqrt
  have ht : 0 < Real.tanh (waveNumber wavelength * depth) :=
    tanh_pos_of_pos (by positivity)
  positivity

/-- Claim C3 witness: the dispersion relation at the spec's concrete
scenario wavelength = 100, depth = 1000. -/
theorem C3_dispersion_relation_witness :
    (0:ℝ) < 100 ∧ (0:ℝ) < 1000 ∧
    (TsunamiWaveModel.waveNumber 100 = 2 * Real.pi / 100 ∧
    ((TsunamiWaveModel.init 1000 1000).angularFrequency
        (TsunamiWaveModel.waveNumber 100) 1000) ^ 2
      = 9.81 * TsunamiWaveModel.waveNumber 100 *
          Real.tanh (TsunamiWaveModel.waveNumber 100 * 1000)) :=
  ⟨by norm_num, by norm_num,
    C3_dispersion_relation 1000 1000 100 1000 (by norm_num) (by norm_num)⟩

open TsunamiWaveModel in
/-- Claim C4: in the analysis record, momentum_flux equals energy
exactly, and both equal 0.5*rho*g*mean(profile^2) with rho = 1025.0 and
g = 9.81. -/
theorem C4_momentum_flux_eq_energy (D : ℝ) (nx : ℕ) (eta : List ℝ)
    (k omega : ℝ) (p : WaveParameters) :
    ((TsunamiWaveModel.init D nx).analyze_wave eta k omega p).momentum_flux
      = ((TsunamiWaveModel.init D nx).analyze_wave eta k omega p).energy ∧
    ((TsunamiWaveModel.init D nx).analyze_wave eta k omega p).energy
      = 0.5 * 1025.0 * 9.81 * listMean (eta.map (fun e => e ^ 2)) ∧
    ((TsunamiWaveModel.init D nx).analyze_wave eta k omega p).momentum_flux
      = 1025.0 * 9.81 * listMean (eta.map (fun e => e ^ 2)) / 2 := by
  refine ⟨?_, rfl, rfl⟩
  show (1025.0 : ℝ) * 9.81 * listMean (eta.map (fun e => e ^ 2)) / 2
      = 0.5 * 1025.0 * 9.81 * listMean (eta.map (fun e => e ^ 2))
  ring

open TsunamiWaveModel in
/-- Claim C10: in the analysis record, energy equals
0.5*rho*g*rms_amplitude^2: energy is recoverable exactly from the RMS
amplitude. -/
theorem C10_energy_from_rms (m : TsunamiWaveModel) (eta : List ℝ)
    (k omega : ℝ) (p : WaveParameters) :
    (m.analyze_wave eta k omega p).energy
      = 0.5 * m.rho * m.g * (m.analyze_wave eta k omega p).rms_amplitude ^ 2 := by
  show 0.5 * m.rho * m.g * listMean (eta.map (fun e => e ^ 2))
      = 0.5 * m.rho * m.g * Real.sqrt (listMean (eta.map (fun e => e ^ 2))) ^ 2
  rw [Real.sq_sqrt (listMean_sq_nonneg eta)]

open TsunamiWaveModel in
/-- Claim C8: calculate_wave_profile leaves the calculator state
unchanged, and a repeat call with equal arguments returns the same
result regardless of other calculator calls made in between. -/
theorem C8_purity (m : TsunamiWaveModel) (p : WaveParameters) (t : ℝ)
    (e : IncludeEffects) :
    (m.calculate_wave_profile_st p t e).2 = m ∧
    (∀ (p2 : WaveParameters) (t2 : ℝ) (e2 : IncludeEffects),
      (((m.calculate_wave_profile_st p2 t2 e2).2).calculate_wave_profile_st p t e).1
        = (m.calculate_wave_profile_st p t e).1) ∧
    (∀ (eta2 : List ℝ) (p2 : WaveParameters),
      (((m.calculate_tsunami_risk_st eta2 p2).2).calculate_wave_profile_st p t e).1
        = (m.calculate_wave_profile_st p t e).1) :=
  ⟨rfl, fun _ _ _ => rfl, fun _ _ => rfl⟩

open TsunamiWaveModel in
/-- Claim C7: with windSpeed = 0, enabling the wind effect leaves the
profile unchanged: the returned profile equals the one computed with
the wind toggle off, the other toggles unchanged. -/
theorem C7_wind_zero_identity (m : TsunamiWaveModel) (p : WaveParameters)
    (t : ℝ) (e : IncludeEffects) (hw : p.wind_speed = 0) :
    (m.calculate_wave_profile p t e).1
      = (m.calculate_wave_profile p t { e with wind := false }).1 := by
  obtain ⟨n, d, b, c, w⟩ := e
  cases w
  · rfl
  · simp only [calculate_wave_profile, applyEffects, if_true, if_false]
    rw [hw]
    apply add_wind_effect_zero
    cases n <;> cases d <;> cases b <;> cases c <;>
      simp [add_nonlinear_effects, add_dispersion_effects, add_bottom_friction,
        add_coriolis_effect, baseProfile, List.length_zipWith, List.length_map]

/-- Claim C7 witness: a concrete parameter set with zero wind speed and
all toggles enabled. -/
theorem C7_wind_zero_identity_witness :
    (WaveParameters.mk 1 100 1000 0.001 0.0001 0 0).wind_speed = 0 ∧
    ((TsunamiWaveModel.init 10 2).calculate_wave_profile
        (WaveParameters.mk 1 100 1000 0.001 0.0001 0 0) 0
        ⟨true, true, true, true, true⟩).1
      = ((TsunamiWaveModel.init 10 2).calculate_wave_profile
        (WaveParameters.mk 1 100 1000 0.001 0.0001 0 0) 0
        ⟨true, true, true, true, false⟩).1 :=
  ⟨rfl, C7_wind_zero_identity (TsunamiWaveModel.init 10 2)
    (WaveParameters.mk 1 100 1000 0.001 0.0001 0 0) 0
    ⟨true, true, true, true, true⟩ rfl⟩

open TsunamiWaveModel in
/-- Claim C5: calculate_tsunami_risk classifies by a threshold ladder on
the maximum absolute sample: below 0.5 the lowest band, [0.5, 2) the
second, [2, 5) the third, at or above 5 the highest; the lower bounds
are inclusive. (The source labels the bands in Vietnamese: Thấp = Low,
Trung bình = Moderate, Cao = High, Rất cao = Very High.) -/
theorem C5_risk_ladder (m : TsunamiWaveModel) (eta : List ℝ)
    (p : WaveParameters) :
    (m.calculate_tsunami_risk eta p).max_height = npAbsMax eta ∧
    (npAbsMax eta < 0.5 →
      (m.calculate_tsunami_risk eta p).risk_level = "Thấp") ∧
    (0.5 ≤ npAbsMax eta → npAbsMax eta < 2.0 →
      (m.calculate_tsunami_risk eta p).risk_level = "Trung bình") ∧
    (2.0 ≤ npAbsMax eta → npAbsMax eta < 5.0 →
      (m.calculate_tsunami_risk eta p).risk_level = "Cao") ∧
    (5.0 ≤ npAbsMax eta →
      (m.calculate_tsunami_risk eta p).risk_level = "Rất cao") := by
  unfold calculate_tsunami_risk
  refine ⟨rfl, fun h1 => ?_, fun h1 h2 => ?_, fun h1 h2 => ?_, fun h1 => ?_⟩
  · show (if npAbsMax eta < 0.5 then "Thấp" else _) = _
    rw [if_pos h1]
  · show (if npAbsMax eta < 0.5 then "Thấp" else _) = _
    rw [if_neg (not_lt.mpr h1), if_pos h2]
  · show (if npAbsMax eta < 0.5 then "Thấp" else _) = _
    rw [if_neg (not_lt.mpr (le_trans (by norm_num) h1)),
      if_neg (not_lt.mpr h1), if_pos h2]
  · show (if npAbsMax eta < 0.5 then "Thấp" else _) = _
    rw [if_neg (not_lt.mpr (le_trans (by norm_num) h1)),
      if_neg (not_lt.mpr (le_trans (by norm_num) h1)),
      if_neg (not_lt.mpr h1)]

/-- Claim C5 witness: the boundary profile [0.5] has maximum height
exactly 0.5 and lands in the second band (lower bound inclusive). -/
theorem C5_risk_ladder_witness :
    (0.5 : ℝ) ≤ npAbsMax [(0.5 : ℝ)] ∧ npAbsMax [(0.5 : ℝ)] < 2.0 ∧
    ((TsunamiWaveModel.init 10 2).calculate_tsunami_risk [(0.5 : ℝ)]
        (WaveParameters.mk 1 100 1000 0.001 0.0001 0 0)).risk_level
      = "Trung bình" := by
  have hval : npAbsMax [(0.5 : ℝ)] = 0.5 := by
    show max |(0.5 : ℝ)| 0 = 0.5
    rw [abs_of_pos (by norm_num : (0 : ℝ) < 0.5)]
    exact max_eq_left (by norm_num)
  refine ⟨le_of_eq hval.symm, by rw [hval]; norm_num, ?_⟩
  exact (C5_risk_ladder (TsunamiWaveModel.init 10 2) [(0.5 : ℝ)]
    (WaveParameters.mk 1 100 1000 0.001 0.0001 0 0)).2.2.1
    (le_of_eq hval.symm) (by rw [hval]; norm_num)

open TsunamiWaveModel in
/-- Claim C6: the damage-estimate string depends only on the maximum
height, never on the energy argument, and follows its own threshold
ladder with breakpoints 1.0, 3.0 and 6.0 (distinct from the risk
ladder's 0.5, 2, 5). -/
theorem C6_damage_ladder (m : TsunamiWaveModel) (h e1 e2 : ℝ)
    (eta1 eta2 : List ℝ) (p1 p2 : WaveParameters) :
    m.estimate_damage h e1 = m.estimate_damage h e2 ∧
    (npAbsMax eta1 = npAbsMax eta2 →
      (m.calculate_tsunami_risk eta1 p1).potential_damage
        = (m.calculate_tsunami_risk eta2 p2).potential_damage) ∧
    (h < 1.0 → m.estimate_damage h e1
      = "Thiệt hại nhẹ đến các công trình ven biển") ∧
    (1.0 ≤ h → h < 3.0 → m.estimate_damage h e1
      = "Thiệt hại đáng kể đến các công trình ven biển, ngập lụt vùng thấp") ∧
    (3.0 ≤ h → h < 6.0 → m.estimate_damage h e1
      = "Thiệt hại nghiêm trọng đến công trình, ngập lụt sâu trong đất liền") ∧
    (6.0 ≤ h → m.estimate_damage h e1
      = "Thiệt hại toàn diện đến cơ sở hạ tầng ven biển") := by
  refine ⟨rfl, fun heq => ?_, fun h1 => ?_, fun h1 h2 => ?_,
    fun h1 h2 => ?_, fun h1 => ?_⟩
  · show m.estimate_damage (npAbsMax eta1)
        (0.5 * m.rho * m.g * listMean (eta1.map (fun e => e ^ 2)))
      = m.estimate_damage (npAbsMax eta2)
        (0.5 * m.rho * m.g * listMean (eta2.map (fun e => e ^ 2)))
    rw [heq]
    rfl
  · unfold estimate_damage
    rw [if_pos h1]
  · unfold estimate_damage
    rw [if_neg (not_lt.mpr h1), if_pos h2]
  · unfold estimate_damage
    rw [if_neg (not_lt.mpr (le_trans (by norm_num) h1)),
      if_neg (not_lt.mpr h1), if_pos h2]
  · unfold estimate_damage
    rw [if_neg (not_lt.mpr (le_trans (by norm_num) h1)),
      if_neg (not_lt.mpr (le_trans (by norm_num) h1)),
      if_neg (not_lt.mpr h1)]

/-- Claim C6 witness: at height exactly 1.0 (and two different energy
values) the estimate is the second band, lower bound inclusive. -/
theorem C6_damage_ladder_witness :
    (1.0 : ℝ) ≤ 1.0 ∧ (1.0 : ℝ) < 3.0 ∧
    (TsunamiWaveModel.init 10 2).estimate_damage 1.0 42
      = "Thiệt hại đáng kể đến các công trình ven biển, ngập lụt vùng thấp" :=
  ⟨le_refl _, by norm_num,
    (C6_damage_ladder (TsunamiWaveModel.init 10 2) 1.0 42 7 [] []
      (WaveParameters.mk 1 100 1000 0.001 0.0001 0 0)
      (WaveParameters.mk 1 100 1000 0.001 0.0001 0 0)).2.2.2.1
      (le_refl _) (by norm_num)⟩

open TsunamiWaveModel in
/-- Claim C9: with every toggle disabled the profile is exactly
amplitude*cos(k*x[i] - omega*t) on the grid, so every sample is bounded
in absolute value by the absolute amplitude. -/
theorem C9_base_profile_bounded (m : TsunamiWaveModel) (p : WaveParameters)
    (t : ℝ) (i : ℕ)
    (h : i < ((m.calculate_wave_profile p t
        ⟨false, false, false, false, false⟩).1).length) :
    (m.calculate_wave_profile p t ⟨false, false, false, false, false⟩).1
      = m.x.map (fun xi => p.amplitude *
          Real.cos (waveNumber p.wavelength * xi
            - m.angularFrequency (waveNumber p.wavelength) p.depth * t)) ∧
    |((m.calculate_wave_profile p t
        ⟨false, false, false, false, false⟩).1).getD i 0| ≤ |p.amplitude| := by
  refine ⟨rfl, ?_⟩
  have hx : i < (m.x.map (fun xi => p.amplitude *
      Real.cos (waveNumber p.wavelength * xi
        - m.angularFrequency (waveNumber p.wavelength) p.depth * t))).length := h
  show |(m.x.map (fun xi => p.amplitude *
      Real.cos (waveNumber p.wavelength * xi
        - m.angularFrequency (waveNumber p.wavelength) p.depth * t))).getD i 0|
    ≤ |p.amplitude|
  rw [List.getD_eq_getElem _ _ hx, List.getElem_map, abs_mul]
  exact mul_le_of_le_one_right (abs_nonneg _) (Real.abs_cos_le_one _)

/-- Claim C9 witness: a two-point grid, unit amplitude, sample 0. -/
theorem C9_base_profile_bounded_witness :
    0 < (((TsunamiWaveModel.init 10 2).calculate_wave_profile
        (WaveParameters.mk 1 100 1000 0.001 0.0001 0 0) 0
        ⟨false, false, false, false, false⟩).1).length ∧
    |(((TsunamiWaveModel.init 10 2).calculate_wave_profile
        (WaveParameters.mk 1 100 1000 0.001 0.0001 0 0) 0
        ⟨false, false, false, false, false⟩).1).getD 0 0| ≤ |(1 : ℝ)| := by
  have hlen : 0 < (((TsunamiWaveModel.init 10 2).calculate_wave_profile
      (WaveParameters.mk 1 100 1000 0.001 0.0001 0 0) 0
      ⟨false, false, false, false, false⟩).1).length := by
    show 0 < ((TsunamiWaveModel.init 10 2).x.map _).length
    rw [List.length_map]
    show 0 < (linspace 0 10 2).length
    rw [linspace, if_neg (by norm_num : (2 : ℕ) ≠ 1)]
    rw [List.length_map, List.length_range]
    norm_num
  exact ⟨hlen, (C9_base_profile_bounded (TsunamiWaveModel.init 10 2)
    (WaveParameters.mk 1 100 1000 0.001 0.0001 0 0) 0 0 hlen).2⟩

/-- Claim C2 counterexample: with domain size 10 and nx = 2 samples the
grid is [0, 10], so the spacing between the consecutive grid points is
10, while the stored dx = 10/2 = 5: the spacing does not equal
dx = domainSize/nx. -/
theorem C2_spacing_counterexample :
    (TsunamiWaveModel.init 10 2).x = [0, 10] ∧
    (TsunamiWaveModel.init 10 2).dx = 5 ∧
    (TsunamiWaveModel.init 10 2).x.getD 1 0 - (TsunamiWaveModel.init 10 2).x.getD 0 0
      ≠ (TsunamiWaveModel.init 10 2).dx := by
  have hx : (TsunamiWaveModel.init 10 2).x = [0, 10] := by
    show linspace 0 10 2 = [0, 10]
    unfold linspace
    rw [if_neg (by norm_num : (2 : ℕ) ≠ 1)]
    rw [show List.range 2 = [0, 1] by rfl]
    simp
    norm_num
  have hdx : (TsunamiWaveModel.init 10 2).dx = 5 := by
    show (10 : ℝ) / ((2 : ℕ) : ℝ) = 5
    norm_num
  refine ⟨hx, hdx, ?_⟩
  rw [hx, hdx]
  simp only [List.getD_cons_succ, List.getD_cons_zero]
  norm_num

open TsunamiWaveModel in
/-- Claim C2 amended: the grid is nx evenly spaced coordinates spanning
[0, D] — first point 0, last point D, consecutive spacing D/(nx-1) —
while the stored dx field equals D/nx, which differs from the actual
grid spacing. Stated for nx >= 2 (with nx = 1 the grid is the single
point [0] and no consecutive pair exists). -/
theorem C2_grid_amended (D : ℝ) (nx : ℕ) (hD : 0 < D) (hnx : 2 ≤ nx) :
    (TsunamiWaveModel.init D nx).x.length = nx ∧
    (TsunamiWaveModel.init D nx).dx = D / (nx : ℝ) ∧
    (TsunamiWaveModel.init D nx).x.getD 0 0 = 0 ∧
    (TsunamiWaveModel.init D nx).x.getD (nx - 1) 0 = D ∧
    (∀ i : ℕ, i + 1 < nx →
      (TsunamiWaveModel.init D nx).x.getD (i + 1) 0
        - (TsunamiWaveModel.init D nx).x.getD i 0 = D / ((nx : ℝ) - 1)) := by
  have h2 : (2 : ℝ) ≤ (nx : ℝ) := by exact_mod_cast hnx
  have hne : ((nx : ℝ) - 1) ≠ 0 := by linarith
  refine ⟨?_, rfl, ?_, ?_, ?_⟩
  · show (linspace 0 D nx).length = nx
    unfold linspace
    rw [if_neg (by omega)]
    rw [List.length_map, List.length_range]
  · show (linspace 0 D nx).getD 0 0 = 0
    rw [linspace_getD D nx hnx 0 (by omega)]
    simp
  · show (linspace 0 D nx).getD (nx - 1) 0 = D
    rw [linspace_getD D nx hnx (nx - 1) (by omega)]
    have hcast : ((nx - 1 : ℕ) : ℝ) = (nx : ℝ) - 1 := by
      push_cast [Nat.cast_sub (by omega : 1 ≤ nx)]
      ring
    rw [hcast]
    field_simp
  · intro i hi
    show (linspace 0 D nx).getD (i + 1) 0 - (linspace 0 D nx).getD i 0
      = D / ((nx : ℝ) - 1)
    rw [linspace_getD D nx hnx (i + 1) hi,
      linspace_getD D nx hnx i (by omega)]
    push_cast
    field_simp
    ring

/-- Claim C2 amended witness: domain size 10 with 3 samples gives grid
[0, 5, 10]: consecutive spacing 10/(3-1) = 5. -/
theorem C2_grid_amended_witness :
    (0 : ℝ) < 10 ∧ 2 ≤ 3 ∧
    (TsunamiWaveModel.init 10 3).x.getD 1 0 - (TsunamiWaveModel.init 10 3).x.getD 0 0
      = 10 / (((3 : ℕ) : ℝ) - 1) :=
  ⟨by norm_num, by norm_num,
    (C2_grid_amended 10 3 (by norm_num) (by norm_num)).2.2.2.2 0 (by norm_num)⟩

end WavePhysics
